import Mathlib

/-!
Verification of the mud-tote-diagram-tool core modules against their
natural-language specification.

The development shallowly embeds, in Lean, the three core modules of the
repository:

* the color/style resolver of src/App-simple.tsx (getBaseEdgeType,
  getEdgeQualifier, getEdgeColor);
* the LaTeX label escaper of src/utils/nodeUtils.ts (isLaTeXContent,
  escapeLaTeXText);
* the JSON exporter/importer of src/utils/nodeUtils.ts (exportAsJSON,
  importFromJSON), with the parsed JSON document modelled as a structure
  of optional fields;
* the edge-endpoint geometry of src/App-simple.tsx (getNodeDimensions,
  calculateEdgeOffset, calculateIntersectionDistance), over the reals.

JavaScript numbers are idealised as rationals (where the code only does
field-free arithmetic: dimensions, offsets) and reals (where the code uses
sqrt/cos/sin).  JavaScript string primitives that the code relies on
(first-occurrence String.replace, String.includes, the regexp tests of
isLaTeXContent, global single-character-class replaces) are modelled
character-list by character-list.
-/

/-! ## JavaScript string primitives used by the source -/

/-- One step of JS String.replace with a plain-string pattern: replace the
first (leftmost) occurrence of pat, scanning position by position. -/
def replaceFirstAux (pat rep : List Char) : List Char → List Char
  | [] => if pat.isPrefixOf [] then rep else []
  | c :: rest =>
    if pat.isPrefixOf (c :: rest) then rep ++ (c :: rest).drop pat.length
    else c :: replaceFirstAux pat rep rest

/-- JS s.replace(pat, rep) for plain-string pat (first occurrence only). -/
def jsReplaceFirst (s pat rep : String) : String :=
  ⟨replaceFirstAux pat.data rep.data s.data⟩

/-- Scan for an occurrence of pat anywhere in the character list. -/
def containsAux (pat : List Char) : List Char → Bool
  | [] => pat.isPrefixOf []
  | c :: rest => pat.isPrefixOf (c :: rest) || containsAux pat rest

/-- JS s.includes(pat). -/
def jsIncludes (s pat : String) : Bool := containsAux pat.data s.data

/-! ## Color resolver (src/App-simple.tsx, getEdgeColor and helpers) -/

/-- Source: edgeType.replace('-suff', '').replace('-nec', ''). -/
def getBaseEdgeType (edgeType : String) : String :=
  jsReplaceFirst (jsReplaceFirst edgeType "-suff" "") "-nec" ""

/-- Source: getEdgeQualifier — '-suff' wins over '-nec', else null. -/
def getEdgeQualifier (edgeType : String) : Option String :=
  if jsIncludes edgeType "-suff" then some "suff"
  else if jsIncludes edgeType "-nec" then some "nec"
  else none

/-- The switch statement on the base type inside getEdgeColor. -/
def baseColorOf (baseType : String) : String :=
  if baseType = "PV" then "#4CAF50"
  else if baseType = "VP" then "#FF9800"
  else if baseType = "PP" then "#9C27B0"
  else if baseType = "VV" then "#F44336"
  else if baseType = "sequence" then "#2196F3"
  else if baseType = "feedback" then "#FF5722"
  else if baseType = "loop" then "#607D8B"
  else if baseType = "exit" then "#8BC34A"
  else if baseType = "entry" then "#4CAF50"
  else "#666"

/-- The chained .replace calls used for the 'nec' qualifier (darker shades,
an explicit four-entry table). -/
def necDarken (c : String) : String :=
  jsReplaceFirst
    (jsReplaceFirst
      (jsReplaceFirst
        (jsReplaceFirst c "#4CAF50" "#2E7D32")
        "#FF9800" "#E65100")
      "#9C27B0" "#6A1B9A")
    "#F44336" "#C62828"

/-- The chained .replace calls used for resultant edges (lighter shades,
an explicit four-entry table). -/
def resultantLighten (c : String) : String :=
  jsReplaceFirst
    (jsReplaceFirst
      (jsReplaceFirst
        (jsReplaceFirst c "#4CAF50" "#81C784")
        "#FF9800" "#FFB74D")
      "#9C27B0" "#BA68C8")
    "#F44336" "#E57373"

/-- Source: getEdgeColor(type, isResultant) of src/App-simple.tsx. -/
def getEdgeColor (edgeType : String) (isResultant : Bool) : String :=
  let baseType := getBaseEdgeType edgeType
  let qualifier := getEdgeQualifier edgeType
  let baseColor := baseColorOf baseType
  if qualifier = some "suff" then baseColor
  else if qualifier = some "nec" then necDarken baseColor
  else if isResultant then resultantLighten baseColor
  else baseColor

/-- C6: getEdgeColor is total on strings, returning the neutral grey for any
string whose base kind is unrecognised; 'PV-nec' maps to the fixed darker
green, ('PV', resultant) to the fixed lighter green, and ('PV-nec',
resultant) to the darker green (the -nec qualifier wins over isResultant);
the TOTE kinds whose colors lie outside the four-entry darker/lighter
tables keep their base shade under -nec and under resultant. -/
theorem C6_edge_color_qualifiers :
    (∀ s : String, ∀ r : Bool,
        getBaseEdgeType s ∉
          (["PV", "VP", "PP", "VV", "sequence", "feedback", "loop",
            "exit", "entry"] : List String) →
        getEdgeColor s r = "#666") ∧
    getEdgeColor "PV-nec" false = "#2E7D32" ∧
    getEdgeColor "PV" true = "#81C784" ∧
    getEdgeColor "PV-nec" true = "#2E7D32" ∧
    getEdgeColor "sequence-nec" false = "#2196F3" ∧
    getEdgeColor "sequence" true = "#2196F3" ∧
    getEdgeColor "feedback-nec" false = "#FF5722" ∧
    getEdgeColor "feedback" true = "#FF5722" ∧
    getEdgeColor "loop-nec" false = "#607D8B" ∧
    getEdgeColor "loop" true = "#607D8B" ∧
    getEdgeColor "exit-nec" false = "#8BC34A" ∧
    getEdgeColor "exit" true = "#8BC34A" := by
  refine ⟨?_, by decide, by decide, by decide, by decide, by decide,
    by decide, by decide, by decide, by decide, by decide, by decide⟩
  intro s r h
  simp only [List.mem_cons, List.mem_singleton, not_or] at h
  obtain ⟨h1, h2, h3, h4, h5, h6, h7, h8, h9, -⟩ := h
  have hb : baseColorOf (getBaseEdgeType s) = "#666" := by
    simp [baseColorOf, h1, h2, h3, h4, h5, h6, h7, h8, h9]
  show getEdgeColor s r = "#666"
  unfold getEdgeColor
  dsimp only
  rw [hb]
  by_cases hq1 : getEdgeQualifier s = some "suff"
  · simp [hq1]
  · by_cases hq2 : getEdgeQualifier s = some "nec"
    · simp [hq1, hq2]
      decide
    · cases r
      · simp [hq1, hq2]
      · simp [hq1, hq2]
        decide

/-- Witness for C6: the universally quantified default-grey conjunct applied
at the concrete unrecognised kind "mystery". -/
theorem C6_edge_color_qualifiers_witness :
    getEdgeColor "mystery" false = "#666" :=
  C6_edge_color_qualifiers.1 "mystery" false (by decide)

/-! ## LaTeX label escaper (src/utils/nodeUtils.ts, isLaTeXContent /
escapeLaTeXText) -/

/-- The opening brace character, written by code point. -/
def lbraceChar : Char := Char.ofNat 123

/-- The closing brace character, written by code point. -/
def rbraceChar : Char := Char.ofNat 125

/-- A regexp word character: [A-Za-z0-9_]. -/
def isWordChar (c : Char) : Bool := c.isAlphanum || c = '_'

/-- Regexp test for a backslash-command token, the pattern backslash-w+. -/
def hasBackslashCommand : List Char → Bool
  | '\\' :: c :: rest => isWordChar c || hasBackslashCommand (c :: rest)
  | _ :: rest => hasBackslashCommand rest
  | [] => false

/-- A JS regexp line terminator, which the dot of a regexp never matches. -/
def isLineTerminator (c : Char) : Bool :=
  c = '\n' || c = '\r' || c = '\u2028' || c = '\u2029'

/-- After an opening dollar: is there a closing dollar before any line
terminator? -/
def mathCloseScan : List Char → Bool
  | [] => false
  | c :: rest =>
    if c = '$' then true
    else if isLineTerminator c then false
    else mathCloseScan rest

/-- Regexp test for inline math, the pattern dollar-dot-star-dollar. -/
def hasMathMode : List Char → Bool
  | [] => false
  | c :: rest => (c = '$' && mathCloseScan rest) || hasMathMode rest

/-- Regexp test for an escaped brace: a backslash followed by a brace. -/
def hasEscapedBrace : List Char → Bool
  | '\\' :: c :: rest =>
    c = lbraceChar || c = rbraceChar || hasEscapedBrace (c :: rest)
  | _ :: rest => hasEscapedBrace rest
  | [] => false

/-- Regexp test for a subscript or superscript marker. -/
def hasSubSup (l : List Char) : Bool := l.any (fun c => c = '_' || c = '^')

/-- Source: isLaTeXContent of src/utils/nodeUtils.ts — the disjunction of
the eight heuristic patterns, in source order. -/
def isLaTeXContent (text : String) : Bool :=
  hasBackslashCommand text.data ||
  hasMathMode text.data ||
  hasEscapedBrace text.data ||
  hasSubSup text.data ||
  jsIncludes text "\\frac\x7b" ||
  jsIncludes text "\\mathbb\x7b" ||
  jsIncludes text "\\mathcal\x7b" ||
  jsIncludes text "\\text\x7b"

/-- The latex-branch global replace ([&%] to backslash-self). -/
def escLatexChar (c : Char) : List Char :=
  if c = '&' ∨ c = '%' then ['\\', c] else [c]

/-- Step 1 of the plain branch: each backslash becomes textbackslash. -/
def step1Backslash (c : Char) : List Char :=
  if c = '\\' then "\\textbackslash\x7b\x7d".data else [c]

/-- Step 2 of the plain branch: the characters of the class [&%$#_ and both
braces] get a backslash prefix. -/
def step2Special (c : Char) : List Char :=
  if c = '&' ∨ c = '%' ∨ c = '$' ∨ c = '#' ∨ c = '_' ∨ c = lbraceChar ∨
      c = rbraceChar then
    ['\\', c]
  else [c]

/-- Step 3 of the plain branch: caret becomes textasciicircum. -/
def step3Caret (c : Char) : List Char :=
  if c = '^' then "\\textasciicircum\x7b\x7d".data else [c]

/-- Step 4 of the plain branch: tilde becomes textasciitilde. -/
def step4Tilde (c : Char) : List Char :=
  if c = '~' then "\\textasciitilde\x7b\x7d".data else [c]

/-- Source: escapeLaTeXText of src/utils/nodeUtils.ts.  The four chained
global regexp replaces of the plain branch are each a single-character-class
replace, hence a flatMap over the characters, applied in source order. -/
def escapeLaTeXText (text : String) : String :=
  if isLaTeXContent text then ⟨text.data.flatMap escLatexChar⟩
  else
    ⟨(((text.data.flatMap step1Backslash).flatMap step2Special).flatMap
        step3Caret).flatMap step4Tilde⟩

/-- The net effect of the four chained plain-branch replaces on one
character. -/
def plainEscapeChar (c : Char) : List Char :=
  if c = '\\' then "\\textbackslash\\\x7b\\\x7d".data
  else if c = '&' ∨ c = '%' ∨ c = '$' ∨ c = '#' ∨ c = '_' ∨ c = lbraceChar ∨
      c = rbraceChar then
    ['\\', c]
  else if c = '^' then "\\textasciicircum\x7b\x7d".data
  else if c = '~' then "\\textasciitilde\x7b\x7d".data
  else [c]

/-- The composition of the four plain-branch steps acts per character. -/
theorem plain_steps_char (c : Char) :
    (((step1Backslash c).flatMap step2Special).flatMap step3Caret).flatMap
      step4Tilde = plainEscapeChar c := by
  by_cases h1 : c = '\\'
  · subst h1; decide
  by_cases h2 : c = '&'
  · subst h2; decide
  by_cases h3 : c = '%'
  · subst h3; decide
  by_cases h4 : c = '$'
  · subst h4; decide
  by_cases h5 : c = '#'
  · subst h5; decide
  by_cases h6 : c = '_'
  · subst h6; decide
  by_cases h7 : c = lbraceChar
  · subst h7; decide
  by_cases h8 : c = rbraceChar
  · subst h8; decide
  by_cases h9 : c = '^'
  · subst h9; decide
  by_cases h10 : c = '~'
  · subst h10; decide
  simp [step1Backslash, step2Special, step3Caret, step4Tilde,
    plainEscapeChar, h1, h2, h3, h4, h5, h6, h7, h8, h9, h10]

/-- The composition of the four plain-branch steps, on a whole list. -/
theorem plain_steps (l : List Char) :
    (((l.flatMap step1Backslash).flatMap step2Special).flatMap
      step3Caret).flatMap step4Tilde = l.flatMap plainEscapeChar := by
  induction l with
  | nil => rfl
  | cons c rest ih =>
    simp only [List.flatMap_cons, List.flatMap_append]
    rw [ih, plain_steps_char]

/-- C7: the typesetting exporter's label escaper is split by the markup
heuristic.  A label matching one of the heuristic patterns has exactly its
ampersands and percent signs escaped and every other character passed
through unchanged; a label matching none has each of backslash, ampersand,
percent, dollar, hash, underscore, the two braces, caret and tilde rewritten
to its literal-text escape, per character. -/
theorem C7_escaper_split :
    (∀ l : String, isLaTeXContent l = true →
        escapeLaTeXText l = ⟨l.data.flatMap escLatexChar⟩) ∧
    (∀ l : String, isLaTeXContent l = false →
        escapeLaTeXText l = ⟨l.data.flatMap plainEscapeChar⟩) := by
  constructor
  · intro l h
    simp [escapeLaTeXText, h]
  · intro l h
    simp [escapeLaTeXText, h, plain_steps]

/-- Witness for C7: a math-mode label keeps its dollars untouched, and a
plain label with an ampersand and a percent has them escaped alongside the
other special characters. -/
theorem C7_escaper_split_witness :
    escapeLaTeXText "$x$" = "$x$" ∧ escapeLaTeXText "a&b%" = "a\\&b\\%" :=
  ⟨(C7_escaper_split.1 "$x$" (by decide)).trans (by decide),
   (C7_escaper_split.2 "a&b%" (by decide)).trans (by decide)⟩

/-! ## JSON export / import (src/utils/nodeUtils.ts, exportAsJSON /
importFromJSON)

The JSON text is abstracted away: the exporter produces, and the importer
consumes, the parsed document.  A parsed document field that may be missing
or null (both falsy in JS) is an Option; a field that the importer also
checks for array-ness is a RawField, whose wrongType constructor stands for
a present, truthy, non-array value.  The timestamps Date.now().toString()
and new Date().toISOString() are passed as parameters. -/

/-- A 2-D point of the document format. -/
structure Point where
  x : ℚ
  y : ℚ
  deriving DecidableEq

/-- Optional per-node style overrides (style field of a Node). -/
structure NodeStyle where
  size : Option String := none
  backgroundColor : Option String := none
  borderColor : Option String := none
  textColor : Option String := none
  deriving DecidableEq

/-- An in-memory Node as the app holds it (types/all.ts). -/
structure Node where
  id : String
  type : String
  position : Point
  label : String
  style : Option NodeStyle := none
  deriving DecidableEq

/-- An in-memory Edge as the app holds it; source/target are null for
entry/exit arrows. -/
structure Edge where
  id : String
  source : Option String := none
  target : Option String := none
  type : String
  isResultant : Option Bool := none
  position : Option Point := none
  entryPoint : Option Point := none
  exitPoint : Option Point := none
  deriving DecidableEq

/-- Diagram metadata. -/
structure Metadata where
  created : String
  modified : String
  author : Option String := none
  description : Option String := none
  deriving DecidableEq

/-- The aggregate Diagram, as built by importFromJSON. -/
structure Diagram where
  id : String
  name : String
  type : String
  nodes : List Node
  edges : List Edge
  entryPoints : List Point := []
  exitPoints : List Point := []
  metadata : Metadata
  deriving DecidableEq

/-- A parsed JSON field that the importer checks with Array.isArray:
absent (missing or falsy), present but not an array, or an array. -/
inductive RawField (α : Type) where
  | absent
  | wrongType
  | arr (val : α)
  deriving DecidableEq

/-- A node as parsed from JSON, before validation. -/
structure RawNode where
  id : Option String := none
  type : Option String := none
  position : Option Point := none
  label : Option String := none
  style : Option NodeStyle := none
  deriving DecidableEq

/-- An edge as parsed from JSON, before validation. -/
structure RawEdge where
  id : Option String := none
  type : Option String := none
  source : Option String := none
  target : Option String := none
  isResultant : Option Bool := none
  position : Option Point := none
  entryPoint : Option Point := none
  exitPoint : Option Point := none
  deriving DecidableEq

/-- Metadata as parsed from JSON (the exporter adds exported/version). -/
structure RawMetadata where
  created : Option String := none
  modified : Option String := none
  author : Option String := none
  description : Option String := none
  exported : Option String := none
  version : Option String := none
  deriving DecidableEq

/-- A parsed top-level JSON document fed to the importer. -/
structure JsonDoc where
  id : Option String := none
  name : Option String := none
  type : Option String := none
  nodes : RawField (List RawNode) := .absent
  edges : RawField (List RawEdge) := .absent
  entryPoints : RawField (List Point) := .absent
  exitPoints : RawField (List Point) := .absent
  metadata : Option RawMetadata := none
  deriving DecidableEq

/-- JSON serialisation of an in-memory Node: every field present. -/
def nodeToRaw (n : Node) : RawNode :=
  { id := some n.id, type := some n.type, position := some n.position,
    label := some n.label, style := n.style }

/-- JSON serialisation of an in-memory Edge. -/
def edgeToRaw (e : Edge) : RawEdge :=
  { id := some e.id, type := some e.type, source := e.source,
    target := e.target, isResultant := e.isResultant,
    position := e.position, entryPoint := e.entryPoint,
    exitPoint := e.exitPoint }

/-- Source: exportAsJSON of src/utils/nodeUtils.ts — the diagram spread
verbatim, with metadata.exported stamped with the current time and a fixed
version string added. -/
def exportAsJSON (d : Diagram) (exportedAt : String) : JsonDoc :=
  { id := some d.id, name := some d.name, type := some d.type,
    nodes := .arr (d.nodes.map nodeToRaw),
    edges := .arr (d.edges.map edgeToRaw),
    entryPoints := .arr d.entryPoints,
    exitPoints := .arr d.exitPoints,
    metadata := some
      { created := some d.metadata.created,
        modified := some d.metadata.modified,
        author := d.metadata.author,
        description := d.metadata.description,
        exported := some exportedAt,
        version := some "1.1" } }

/-- JS truthiness of an optional string (null/undefined and '' are falsy). -/
def truthyStr : Option String → Bool
  | none => false
  | some s => s != ""

/-- The five recognised node type strings of the importer. -/
def validNodeTypes : List String :=
  ["vocabulary", "practice", "test", "operate", "exit"]

/-- The per-node validation of importFromJSON. -/
def validateNode (node : RawNode) : Except String Unit :=
  if !truthyStr node.id || !truthyStr node.type || node.position.isNone ||
      !truthyStr node.label then
    .error "Invalid node structure in diagram"
  else if node.type.getD "" ∉ validNodeTypes then
    .error ("Invalid node type: " ++ node.type.getD "")
  else .ok ()

/-- The per-edge validation of importFromJSON: entry/exit edges may have
null source/target, every other edge needs truthy source and target. -/
def validateEdge (edge : RawEdge) : Except String Unit :=
  if !truthyStr edge.id || !truthyStr edge.type then
    .error "Invalid edge structure in diagram"
  else if edge.type ≠ some "entry" ∧ edge.type ≠ some "exit" ∧
      (!truthyStr edge.source || !truthyStr edge.target) then
    .error "Invalid edge: missing source or target"
  else .ok ()

/-- The for-loops of the importer: first validation failure aborts. -/
def firstError {α : Type} (f : α → Except String Unit) :
    List α → Except String Unit
  | [] => .ok ()
  | x :: xs =>
    match f x with
    | .error e => .error e
    | .ok _ => firstError f xs

/-- JS '||' with a string default (null, undefined and '' all fall back). -/
def orDefault (o : Option String) (d : String) : String :=
  match o with
  | some s => if s = "" then d else s
  | none => d

/-- Reading a validated raw node back as an in-memory Node (the source
keeps the parsed object as-is; the defaults are unreachable after
validation). -/
def rawToNode (n : RawNode) : Node :=
  { id := n.id.getD "", type := n.type.getD "",
    position := n.position.getD ⟨0, 0⟩, label := n.label.getD "",
    style := n.style }

/-- Reading a validated raw edge back as an in-memory Edge. -/
def rawToEdge (e : RawEdge) : Edge :=
  { id := e.id.getD "", type := e.type.getD "", source := e.source,
    target := e.target, isResultant := e.isResultant,
    position := e.position, entryPoint := e.entryPoint,
    exitPoint := e.exitPoint }

/-- The test 'present/truthy but not an array' of the importer. -/
def isNonArray {α : Type} : RawField α → Bool
  | .wrongType => true
  | _ => false

/-- JS value-or-empty-array on an optional list field. -/
def arrOrEmpty {α : Type} : RawField (List α) → List α
  | .arr l => l
  | _ => []

/-- Source: importFromJSON of src/utils/nodeUtils.ts — validate the
top-level shape, every node, every edge; on success build the Diagram with
defaults for missing top-level fields and a freshly stamped
metadata.modified.  nowMillis models Date.now().toString() and nowISO
models new Date().toISOString(). -/
def importFromJSON (doc : JsonDoc) (nowMillis nowISO : String) :
    Except String Diagram :=
  match doc.nodes with
  | .arr importedNodes =>
    match doc.edges with
    | .arr importedEdges =>
      if isNonArray doc.entryPoints then
        .error "Invalid diagram format: entryPoints must be an array"
      else if isNonArray doc.exitPoints then
        .error "Invalid diagram format: exitPoints must be an array"
      else
        match firstError validateNode importedNodes with
        | .error e => .error e
        | .ok _ =>
          match firstError validateEdge importedEdges with
          | .error e => .error e
          | .ok _ =>
            .ok
              { id := orDefault doc.id nowMillis,
                name := orDefault doc.name "Imported Diagram",
                type := orDefault doc.type "HYBRID",
                nodes := importedNodes.map rawToNode,
                edges := importedEdges.map rawToEdge,
                entryPoints := arrOrEmpty doc.entryPoints,
                exitPoints := arrOrEmpty doc.exitPoints,
                metadata :=
                  { created := orDefault (doc.metadata.bind (·.created)) nowISO,
                    modified := nowISO,
                    author := doc.metadata.bind (·.author),
                    description := doc.metadata.bind (·.description) } }
    | _ => .error "Invalid diagram format: missing or invalid edges array"
  | _ => .error "Invalid diagram format: missing or invalid nodes array"

/-- The caller-side contract: on a validation error the alert fires and the
onImport callback is never invoked, so the current diagram is kept. -/
def importApply (current : Diagram) (doc : JsonDoc)
    (nowMillis nowISO : String) : Diagram :=
  match importFromJSON doc nowMillis nowISO with
  | .error _ => current
  | .ok d => d

/-- A list validates successfully when every element does. -/
theorem firstError_ok_of_all {α : Type} {f : α → Except String Unit}
    {l : List α} (h : ∀ x ∈ l, f x = .ok ()) : firstError f l = .ok () := by
  induction l with
  | nil => rfl
  | cons a xs ih =>
    have ha := h a (List.mem_cons_self a xs)
    unfold firstError
    rw [ha]
    exact ih (fun x hx => h x (List.mem_cons_of_mem a hx))

/-- If a list validates successfully, every element does. -/
theorem firstError_all_ok {α : Type} {f : α → Except String Unit}
    {l : List α} (h : firstError f l = .ok ()) : ∀ x ∈ l, f x = .ok () := by
  induction l with
  | nil => intro x hx; exact absurd hx (List.not_mem_nil x)
  | cons a xs ih =>
    intro x hx
    unfold firstError at h
    cases hfa : f a with
    | error e => rw [hfa] at h; simp at h
    | ok u =>
      rw [hfa] at h
      rcases List.mem_cons.mp hx with rfl | hx2
      · cases u; exact hfa
      · exact ih h x hx2

/-- A node with a falsy id, type, position or label, or an unrecognised
type, never validates. -/
theorem validateNode_not_ok {n : RawNode}
    (hbad : truthyStr n.id = false ∨ truthyStr n.type = false ∨
      n.position = none ∨ truthyStr n.label = false ∨
      n.type.getD "" ∉ validNodeTypes) :
    validateNode n ≠ .ok () := by
  unfold validateNode
  rcases hbad with hb | hb | hb | hb | hb
  · rw [if_pos (by simp [hb])]; simp
  · rw [if_pos (by simp [hb])]; simp
  · rw [if_pos (by simp [hb])]; simp
  · rw [if_pos (by simp [hb])]; simp
  · by_cases h1 : (!truthyStr n.id || !truthyStr n.type ||
        n.position.isNone || !truthyStr n.label) = true
    · rw [if_pos h1]; simp
    · rw [if_neg h1, if_pos hb]; simp

/-- A non-entry, non-exit edge with a falsy source or target never
validates. -/
theorem validateEdge_not_ok {e : RawEdge}
    (hentry : e.type ≠ some "entry") (hexit : e.type ≠ some "exit")
    (hbad : truthyStr e.source = false ∨ truthyStr e.target = false) :
    validateEdge e ≠ .ok () := by
  unfold validateEdge
  by_cases h1 : (!truthyStr e.id || !truthyStr e.type) = true
  · rw [if_pos h1]; simp
  · rw [if_neg h1, if_pos ?_]
    · simp
    · refine ⟨hentry, hexit, ?_⟩
      rcases hbad with hb | hb
      · simp [hb]
      · simp [hb]

/-- A well-formed in-memory node validates after serialisation. -/
theorem validateNode_nodeToRaw {n : Node} (h1 : n.id ≠ "")
    (h2 : n.label ≠ "") (h3 : n.type ∈ validNodeTypes) :
    validateNode (nodeToRaw n) = .ok () := by
  have ht : n.type ≠ "" := by
    intro he
    rw [he] at h3
    simp [validNodeTypes] at h3
  have hid : (n.id == "") = false := beq_eq_false_iff_ne.mpr h1
  have hlab : (n.label == "") = false := beq_eq_false_iff_ne.mpr h2
  have htyp : (n.type == "") = false := beq_eq_false_iff_ne.mpr ht
  unfold validateNode nodeToRaw
  rw [if_neg (by simp [truthyStr]; exact ⟨⟨h1, ht⟩, h2⟩),
    if_neg (by simp [h3])]

/-- A well-formed in-memory edge validates after serialisation. -/
theorem validateEdge_edgeToRaw {e : Edge} (h1 : e.id ≠ "") (h2 : e.type ≠ "")
    (h3 : e.type ≠ "entry" → e.type ≠ "exit" →
      truthyStr e.source = true ∧ truthyStr e.target = true) :
    validateEdge (edgeToRaw e) = .ok () := by
  have hid : (e.id == "") = false := beq_eq_false_iff_ne.mpr h1
  have htyp : (e.type == "") = false := beq_eq_false_iff_ne.mpr h2
  unfold validateEdge edgeToRaw
  rw [if_neg (by simp [truthyStr]; exact ⟨h1, h2⟩)]
  by_cases ht : e.type = "entry" ∨ e.type = "exit"
  · rw [if_neg ?_]
    intro hc
    rcases ht with ht | ht
    · exact hc.1 (by rw [ht])
    · exact hc.2.1 (by rw [ht])
  · push_neg at ht
    obtain ⟨hs, htt⟩ := h3 ht.1 ht.2
    rw [if_neg ?_]
    intro hc
    rw [hs, htt] at hc
    simp at hc

/-- Deserialisation undoes serialisation on nodes. -/
theorem rawToNode_nodeToRaw (n : Node) : rawToNode (nodeToRaw n) = n := by
  cases n; rfl

/-- Deserialisation undoes serialisation on edges. -/
theorem rawToEdge_edgeToRaw (e : Edge) : rawToEdge (edgeToRaw e) = e := by
  cases e; rfl

/-- A successful import implies the document passed every validation. -/
theorem import_ok_valid {doc : JsonDoc} {a b : String} {dg : Diagram}
    (h : importFromJSON doc a b = .ok dg) :
    (∀ l, doc.nodes = .arr l → firstError validateNode l = .ok ()) ∧
    (∀ l, doc.edges = .arr l → firstError validateEdge l = .ok ()) ∧
    doc.entryPoints ≠ .wrongType ∧ doc.exitPoints ≠ .wrongType := by
  unfold importFromJSON at h
  rcases hn : doc.nodes with _ | _ | ns <;> rw [hn] at h
  · simp at h
  · simp at h
  rcases he : doc.edges with _ | _ | es <;> rw [he] at h
  · simp at h
  · simp at h
  dsimp only at h
  by_cases hp : isNonArray doc.entryPoints = true
  · rw [if_pos hp] at h; simp at h
  rw [if_neg hp] at h
  by_cases hx : isNonArray doc.exitPoints = true
  · rw [if_pos hx] at h; simp at h
  rw [if_neg hx] at h
  rcases hv : firstError validateNode ns with m | u <;> rw [hv] at h
  · simp at h
  cases u
  rcases hw : firstError validateEdge es with m | u <;> rw [hw] at h
  · simp at h
  cases u
  refine ⟨?_, ?_, ?_, ?_⟩
  · intro l hl
    injection hl with hl
    rw [← hl]
    exact hv
  · intro l hl
    injection hl with hl
    rw [← hl]
    exact hw
  · intro hc
    rw [hc] at hp
    exact hp rfl
  · intro hc
    rw [hc] at hx
    exact hx rfl

/-- Every import either fails with a message or returns a diagram. -/
theorem import_cases (doc : JsonDoc) (a b : String) :
    (∃ m, importFromJSON doc a b = .error m) ∨
    ∃ dg, importFromJSON doc a b = .ok dg := by
  cases h : importFromJSON doc a b with
  | error m => exact Or.inl ⟨m, rfl⟩
  | ok dg => exact Or.inr ⟨dg, rfl⟩

/-- C2: the importer rejects, with an error and no proposed diagram, any
document with a node missing id/type/position/label or with an
unrecognised node type; any document with a non-entry/non-exit edge whose
source or target is falsy; and any document whose entryPoints or
exitPoints field is present but not an array.  Rejection leaves the
caller's current diagram untouched. -/
theorem C2_import_rejects_malformed :
    (∀ (doc : JsonDoc) (l : List RawNode) (n : RawNode) (a b : String),
        doc.nodes = .arr l → n ∈ l →
        (truthyStr n.id = false ∨ truthyStr n.type = false ∨
          n.position = none ∨ truthyStr n.label = false ∨
          n.type.getD "" ∉ validNodeTypes) →
        ∃ msg, importFromJSON doc a b = .error msg) ∧
    (∀ (doc : JsonDoc) (l : List RawEdge) (e : RawEdge) (a b : String),
        doc.edges = .arr l → e ∈ l →
        e.type ≠ some "entry" → e.type ≠ some "exit" →
        (truthyStr e.source = false ∨ truthyStr e.target = false) →
        ∃ msg, importFromJSON doc a b = .error msg) ∧
    (∀ (doc : JsonDoc) (a b : String), doc.entryPoints = .wrongType →
        ∃ msg, importFromJSON doc a b = .error msg) ∧
    (∀ (doc : JsonDoc) (a b : String), doc.exitPoints = .wrongType →
        ∃ msg, importFromJSON doc a b = .error msg) ∧
    (∀ (current : Diagram) (doc : JsonDoc) (a b msg : String),
        importFromJSON doc a b = .error msg →
        importApply current doc a b = current) := by
  refine ⟨?_, ?_, ?_, ?_, ?_⟩
  · intro doc l n a b hn hmem hbad
    rcases import_cases doc a b with hr | ⟨dg, hdg⟩
    · exact hr
    · exact absurd (firstError_all_ok ((import_ok_valid hdg).1 l hn) n hmem)
        (validateNode_not_ok hbad)
  · intro doc l e a b he hmem hentry hexit hbad
    rcases import_cases doc a b with hr | ⟨dg, hdg⟩
    · exact hr
    · exact absurd (firstError_all_ok ((import_ok_valid hdg).2.1 l he) e hmem)
        (validateEdge_not_ok hentry hexit hbad)
  · intro doc a b hp
    rcases import_cases doc a b with hr | ⟨dg, hdg⟩
    · exact hr
    · exact absurd hp (import_ok_valid hdg).2.2.1
  · intro doc a b hx
    rcases import_cases doc a b with hr | ⟨dg, hdg⟩
    · exact hr
    · exact absurd hx (import_ok_valid hdg).2.2.2
  · intro current doc a b msg h
    unfold importApply
    rw [h]

/-- A raw node with id, type and position but no label. -/
def noLabelNode : RawNode :=
  { id := some "n1", type := some "vocabulary", position := some ⟨0, 0⟩ }

/-- The spec's malformed edge: type PV, no source, no target. -/
def sourcelessPV : RawEdge := { id := some "e1", type := some "PV" }

/-- A small concrete current diagram. -/
def tinyDiagram : Diagram :=
  { id := "c", name := "c", type := "MUD", nodes := [], edges := [],
    metadata := ⟨"a", "b", none, none⟩ }

/-- Witness for C2: a node missing its label, the spec's PV edge without
source/target, and a non-array entryPoints, each rejected on concrete
documents; the rejection keeps a concrete current diagram unchanged. -/
theorem C2_import_rejects_malformed_witness :
    (∃ msg, importFromJSON
        { nodes := .arr [noLabelNode], edges := .arr [] } "1" "2" =
      .error msg) ∧
    (∃ msg, importFromJSON
        { nodes := .arr [], edges := .arr [sourcelessPV] } "1" "2" =
      .error msg) ∧
    (∃ msg, importFromJSON
        { nodes := .arr [], edges := .arr [], entryPoints := .wrongType }
        "1" "2" = .error msg) ∧
    importApply tinyDiagram
        { nodes := .arr [], edges := .arr [sourcelessPV] } "1" "2" =
      tinyDiagram := by
  refine ⟨?_, ?_, ?_, ?_⟩
  · exact C2_import_rejects_malformed.1 _ _ noLabelNode "1" "2" rfl
      (by decide) (by decide)
  · exact C2_import_rejects_malformed.2.1 _ _ sourcelessPV "1" "2" rfl
      (by decide) (by decide) (by decide) (by decide)
  · exact C2_import_rejects_malformed.2.2.1 _ "1" "2" rfl
  · obtain ⟨msg, hmsg⟩ := C2_import_rejects_malformed.2.1
      { nodes := .arr [], edges := .arr [sourcelessPV] } _ sourcelessPV
      "1" "2" rfl (by decide) (by decide) (by decide) (by decide)
    exact C2_import_rejects_malformed.2.2.2.2 _ _ "1" "2" msg hmsg

/-- Serialising then deserialising a node list is the identity. -/
theorem map_roundtrip_nodes (l : List Node) :
    List.map (rawToNode ∘ nodeToRaw) l = l := by
  induction l with
  | nil => rfl
  | cons a xs ih =>
    show rawToNode (nodeToRaw a) :: List.map (rawToNode ∘ nodeToRaw) xs = _
    rw [rawToNode_nodeToRaw, ih]

/-- Serialising then deserialising an edge list is the identity. -/
theorem map_roundtrip_edges (l : List Edge) :
    List.map (rawToEdge ∘ edgeToRaw) l = l := by
  induction l with
  | nil => rfl
  | cons a xs ih =>
    show rawToEdge (edgeToRaw a) :: List.map (rawToEdge ∘ edgeToRaw) xs = _
    rw [rawToEdge_edgeToRaw, ih]

/-- C1 counterexample: a Diagram whose name is the empty string is not
round-tripped structurally.  The importer's JS-falsy default replaces the
empty name by 'Imported Diagram', so Import(Export(D)) differs from D in
the name field, which is not one of the timestamp fields. -/
theorem C1_roundtrip_counterexample :
    importFromJSON
        (exportAsJSON
          { id := "d1", name := "", type := "MUD", nodes := [], edges := [],
            metadata := ⟨"tc", "tm", none, none⟩ } "te") "42" "tn" =
      .ok { id := "d1", name := "Imported Diagram", type := "MUD",
            nodes := [], edges := [],
            metadata := ⟨"tc", "tn", none, none⟩ } ∧
    ("Imported Diagram" : String) ≠ "" :=
  ⟨rfl, by decide⟩

/-- C1 (amended): for a Diagram none of whose JS-falsy defaults can fire —
nonempty id, name, type and metadata.created, every node with nonempty id
and label and a recognised type, every edge with nonempty id and type and,
unless it is an entry/exit edge, truthy source and target — importing the
exported document returns the same Diagram except that metadata.modified
is freshly stamped with the import-time timestamp, and the exported
document's metadata carries the fresh export-time stamp (the two timestamp
fields advance; nothing else changes). -/
theorem C1_export_import_roundtrip
    (d : Diagram) (exportedAt nowMillis nowISO : String)
    (hid : d.id ≠ "") (hname : d.name ≠ "") (htype : d.type ≠ "")
    (hcreated : d.metadata.created ≠ "")
    (hnodes : ∀ n ∈ d.nodes,
      n.id ≠ "" ∧ n.label ≠ "" ∧ n.type ∈ validNodeTypes)
    (hedges : ∀ e ∈ d.edges, e.id ≠ "" ∧ e.type ≠ "" ∧
      (e.type ≠ "entry" → e.type ≠ "exit" →
        truthyStr e.source = true ∧ truthyStr e.target = true)) :
    importFromJSON (exportAsJSON d exportedAt) nowMillis nowISO =
      .ok { d with metadata := { d.metadata with modified := nowISO } } ∧
    (exportAsJSON d exportedAt).metadata.bind RawMetadata.exported =
      some exportedAt := by
  constructor
  · have hvn : firstError validateNode (d.nodes.map nodeToRaw) = .ok () := by
      apply firstError_ok_of_all
      intro x hx
      rcases List.mem_map.mp hx with ⟨n, hn, rfl⟩
      obtain ⟨e1, e2, e3⟩ := hnodes n hn
      exact validateNode_nodeToRaw e1 e2 e3
    have hve : firstError validateEdge (d.edges.map edgeToRaw) = .ok () := by
      apply firstError_ok_of_all
      intro x hx
      rcases List.mem_map.mp hx with ⟨e, he, rfl⟩
      obtain ⟨e1, e2, e3⟩ := hedges e he
      exact validateEdge_edgeToRaw e1 e2 e3
    simp [importFromJSON, exportAsJSON, isNonArray, arrOrEmpty, orDefault,
      hvn, hve, hid, hname, htype, hcreated, rawToNode_nodeToRaw,
      rawToEdge_edgeToRaw]
    constructor
    · exact map_roundtrip_nodes d.nodes
    · exact map_roundtrip_edges d.edges
  · simp [exportAsJSON]

/-- A concrete well-formed node for the C1 witness. -/
def rtNode : Node :=
  { id := "n1", type := "vocabulary", position := ⟨0, 0⟩, label := "L" }

/-- A concrete well-formed edge for the C1 witness. -/
def rtEdge : Edge :=
  { id := "e1", source := some "n1", target := some "n1", type := "PV" }

/-- A concrete well-formed diagram for the C1 witness. -/
def rtDiagram : Diagram :=
  { id := "D", name := "My", type := "MUD", nodes := [rtNode],
    edges := [rtEdge], metadata := ⟨"tc", "tm", none, none⟩ }

/-- Witness for C1 (amended): the round trip on a concrete one-node,
one-edge diagram, with fresh stamps 'te' (export) and 'tn' (import). -/
theorem C1_export_import_roundtrip_witness :
    importFromJSON (exportAsJSON rtDiagram "te") "42" "tn" =
      .ok { rtDiagram with
            metadata := { rtDiagram.metadata with modified := "tn" } } ∧
    (exportAsJSON rtDiagram "te").metadata.bind RawMetadata.exported =
      some "te" :=
  C1_export_import_roundtrip rtDiagram "te" "42" "tn" (by decide) (by decide)
    (by decide) (by decide) (by decide) (by decide)

/-- C10: documents missing the top-level id, name, type, metadata,
entryPoints and exitPoints fields are accepted — only the nodes and edges
arrays are mandatory — and the returned Diagram fills every missing field
with its default: a fresh id from the import-time clock, the name
'Imported Diagram', the type 'HYBRID', empty entry/exit point lists and
freshly stamped created/modified metadata. -/
theorem C10_import_defaults
    (ns : List RawNode) (es : List RawEdge) (nowMillis nowISO : String)
    (hns : ∀ n ∈ ns, validateNode n = .ok ())
    (hes : ∀ e ∈ es, validateEdge e = .ok ()) :
    importFromJSON { nodes := .arr ns, edges := .arr es } nowMillis nowISO =
      .ok { id := nowMillis, name := "Imported Diagram", type := "HYBRID",
            nodes := ns.map rawToNode, edges := es.map rawToEdge,
            entryPoints := [], exitPoints := [],
            metadata := ⟨nowISO, nowISO, none, none⟩ } ∧
    (∀ (doc : JsonDoc) (a b : String), doc.nodes = .absent →
        ∃ msg, importFromJSON doc a b = .error msg) ∧
    (∀ (doc : JsonDoc) (a b : String), doc.edges = .absent →
        ∃ msg, importFromJSON doc a b = .error msg) := by
  refine ⟨?_, ?_, ?_⟩
  · have hvn := firstError_ok_of_all hns
    have hve := firstError_ok_of_all hes
    simp [importFromJSON, isNonArray, arrOrEmpty, orDefault, hvn, hve]
  · intro doc a b h
    unfold importFromJSON
    rw [h]
    exact ⟨_, rfl⟩
  · intro doc a b h
    unfold importFromJSON
    rcases hn : doc.nodes with _ | _ | ns2
    · exact ⟨_, rfl⟩
    · exact ⟨_, rfl⟩
    · rw [h]
      exact ⟨_, rfl⟩

/-- A concrete valid raw node for the C10 witness. -/
def c10Node : RawNode :=
  { id := some "n1", type := some "vocabulary", position := some ⟨1, 2⟩,
    label := some "Lab" }

/-- A concrete valid raw entry edge (null source/target) for the C10
witness. -/
def c10Edge : RawEdge := { id := some "e1", type := some "entry" }

/-- Witness for C10: a document holding only nodes and edges imports with
all defaults filled in, and the fully-empty document is rejected. -/
theorem C10_import_defaults_witness :
    importFromJSON { nodes := .arr [c10Node], edges := .arr [c10Edge] }
        "99" "T" =
      .ok { id := "99", name := "Imported Diagram", type := "HYBRID",
            nodes := [rawToNode c10Node], edges := [rawToEdge c10Edge],
            entryPoints := [], exitPoints := [],
            metadata := ⟨"T", "T", none, none⟩ } ∧
    (∃ msg, importFromJSON {} "1" "2" = .error msg) := by
  have h := C10_import_defaults [c10Node] [c10Edge] "99" "T"
    (by intro n hn; rcases List.mem_singleton.mp hn with rfl; rfl)
    (by intro e he; rcases List.mem_singleton.mp he with rfl; rfl)
  exact ⟨h.1, h.2.1 {} "1" "2" rfl⟩

/-! ## Edge-endpoint geometry (src/App-simple.tsx, calculateEdgeOffset)

The App-simple.tsx component declares its own inline Node/Edge interfaces;
they are embedded here as GNode/GEdge (the types/all.ts names are taken by
the import module above).  Coordinates are reals; the dimension table is
exact rational arithmetic. -/

/-- The inline Node interface of App-simple.tsx. -/
structure GNode where
  id : String
  type : String
  position : ℝ × ℝ
  label : String := ""
  style : Option NodeStyle := none

/-- The inline Edge interface of App-simple.tsx; source/target are null
for entry/exit arrows.  The defensive id-is-defined guard of the filters
is vacuous here since id is a mandatory string of the interface. -/
structure GEdge where
  id : String
  source : Option String := none
  target : Option String := none
  type : String
  isResultant : Option Bool := none
  deriving DecidableEq

/-- The width/height/radius record of getNodeDimensions. -/
structure Dim where
  width : ℚ
  height : ℚ
  radius : ℚ
  deriving DecidableEq

/-- JS Math.round: round half toward positive infinity. -/
def jsRound (x : ℚ) : ℚ := ((⌊x + 1 / 2⌋ : ℤ) : ℚ)

/-- Source: getNodeDimensions of src/App-simple.tsx (its radius is half
the scaled base width, unlike the nodeUtils.ts variant). -/
def getNodeDimensions (node : GNode) : Dim :=
  let size := orDefault (match node.style with
    | some st => st.size
    | none => none) "medium"
  let sizeMultiplier : ℚ :=
    if size = "small" then 0.8 else if size = "large" then 1.3 else 1
  if node.type = "test" then
    let baseSize : ℚ := 70
    let adjustedSize := jsRound (baseSize * sizeMultiplier)
    { width := adjustedSize, height := adjustedSize,
      radius := adjustedSize / 2 }
  else
    let baseWidth : ℚ := 100
    let baseHeight : ℚ := 50
    { width := jsRound (baseWidth * sizeMultiplier),
      height := jsRound (baseHeight * sizeMultiplier),
      radius := jsRound (baseWidth * sizeMultiplier / 2) }

/-- nodes.find(n => n.id === ref): a null ref never equals an id. -/
def findNode (nodes : List GNode) : Option String → Option GNode
  | none => none
  | some s => nodes.find? (fun n => n.id == s)

/-- The same-direction filter of calculateEdgeOffset: valid edges sharing
the exact (source, target) pair. -/
def sameDirectionEdges (edge : GEdge) (allEdges : List GEdge) : List GEdge :=
  allEdges.filter (fun e =>
    truthyStr e.source && truthyStr e.target &&
    e.source == edge.source && e.target == edge.target)

/-- The opposite-direction filter of calculateEdgeOffset: valid edges with
the pair reversed. -/
def oppositeDirectionEdges (edge : GEdge) (allEdges : List GEdge) :
    List GEdge :=
  allEdges.filter (fun e =>
    truthyStr e.source && truthyStr e.target &&
    e.source == edge.target && e.target == edge.source)

/-- Code-point comparison of strings, standing in for the localeCompare
comparator. -/
def strLeChars : List Char → List Char → Bool
  | [], _ => true
  | _ :: _, [] => false
  | a :: as, b :: bs =>
    if a.toNat < b.toNat then true
    else if b.toNat < a.toNat then false
    else strLeChars as bs

/-- Boolean string order on the character lists. -/
def strLe (a b : String) : Bool := strLeChars a.data b.data

/-- Stable insertion into an id-sorted list. -/
def insertById (e : GEdge) : List GEdge → List GEdge
  | [] => [e]
  | x :: xs => if strLe e.id x.id then e :: x :: xs else x :: insertById e xs

/-- The stable sort-by-id of the source (Array.sort with a localeCompare
comparator), modelled as stable insertion sort. -/
def sortById : List GEdge → List GEdge
  | [] => []
  | x :: xs => insertById x (sortById xs)

/-- The self-loop filter: edges whose source and target both equal the
node's id. -/
def selfEdgesOf (nodeId : String) (allEdges : List GEdge) : List GEdge :=
  allEdges.filter (fun e =>
    e.source == some nodeId && e.target == some nodeId)

/-- JS Array.findIndex on the id, -1 when absent. -/
def findIndexById (i : String) : List GEdge → ℤ
  | [] => -1
  | e :: rest =>
    if e.id == i then 0
    else
      let r := findIndexById i rest
      if r = -1 then -1 else r + 1

/-- The perpendicular-offset computation of calculateEdgeOffset: parallel
spreading (25px spacing for two edges, 30px for three or more, with the
slot count capped at 3) plus a fixed 35px bias when opposite-direction
edges exist. -/
def perpOffsetOf (edge : GEdge) (allEdges : List GEdge) : ℚ :=
  let same := sortById (sameDirectionEdges edge allEdges)
  let opposite := sortById (oppositeDirectionEdges edge allEdges)
  let p0 : ℚ :=
    if 1 < same.length then
      let edgeIndex := findIndexById edge.id same
      if edgeIndex ≠ -1 then
        let totalEdges := min same.length 3
        let spacing : ℚ := if totalEdges = 2 then 25 else 30
        ((edgeIndex : ℚ) - ((totalEdges : ℚ) - 1) / 2) * spacing
      else 0
    else 0
  if 0 < opposite.length then
    if same.length = 1 then 35 else p0 + 35
  else p0

/-- The angular slot, in degrees, assigned to a self-loop edge: 60 degrees
per slot, centered on 0. -/
def selfLoopAngleDeg (edge : GEdge) (allEdges : List GEdge)
    (nodeId : String) : ℚ :=
  let selfEdges := sortById (selfEdgesOf nodeId allEdges)
  let edgeIndex := findIndexById edge.id selfEdges
  (edgeIndex : ℚ) * 60 - ((selfEdges.length : ℚ) - 1) * 30

/-- The x1/y1/x2/y2 record returned by calculateEdgeOffset. -/
structure Seg where
  x1 : ℝ
  y1 : ℝ
  x2 : ℝ
  y2 : ℝ

/-- Source: the per-shape border-distance helper inside calculateEdgeOffset
(parametric ellipse radius for vocabulary, radius times 1.2 for the test
diamond, slab intersection for the rectangle shapes). -/
noncomputable def calculateIntersectionDistance (node : GNode) (dim : Dim)
    (dirX dirY : ℝ) : ℝ :=
  if node.type = "vocabulary" then
    let rx : ℝ := (dim.width : ℝ) / 2
    let ry : ℝ := (dim.height : ℝ) / 2
    let cosTheta := |dirX|
    let sinTheta := |dirY|
    1 / Real.sqrt (cosTheta * cosTheta / (rx * rx) +
      sinTheta * sinTheta / (ry * ry))
  else if node.type = "test" then
    (dim.radius : ℝ) * 1.2
  else
    let halfWidth : ℝ := (dim.width : ℝ) / 2
    let halfHeight : ℝ := (dim.height : ℝ) / 2
    if |dirY| < |dirX| then halfWidth / |dirX|
    else halfHeight / |dirY|

/-- Source: calculateEdgeOffset of src/App-simple.tsx — dangling
references degenerate to the zero segment; self-loops get a short arc at
radius half-max-dimension + 10 in the slot direction; otherwise the
center-to-center segment is offset perpendicularly and pulled back to the
two shape borders. -/
noncomputable def calculateEdgeOffset (edge : GEdge) (allEdges : List GEdge)
    (nodes : List GNode) : Seg :=
  match findNode nodes edge.source, findNode nodes edge.target with
  | some sourceNode, some targetNode =>
    if sourceNode.id = targetNode.id then
      let nodeDim := getNodeDimensions sourceNode
      let radius : ℝ := ((max nodeDim.width nodeDim.height : ℚ) : ℝ) / 2
      let angle : ℝ :=
        ((selfLoopAngleDeg edge allEdges sourceNode.id : ℚ) : ℝ) *
          Real.pi / 180
      let startAngle := angle - 0.3
      let endAngle := angle + 0.3
      { x1 := sourceNode.position.1 + (radius + 10) * Real.cos startAngle,
        y1 := sourceNode.position.2 + (radius + 10) * Real.sin startAngle,
        x2 := sourceNode.position.1 + (radius + 10) * Real.cos endAngle,
        y2 := sourceNode.position.2 + (radius + 10) * Real.sin endAngle }
    else
      let dx := targetNode.position.1 - sourceNode.position.1
      let dy := targetNode.position.2 - sourceNode.position.2
      let length := Real.sqrt (dx * dx + dy * dy)
      if length = 0 then
        { x1 := sourceNode.position.1, y1 := sourceNode.position.2,
          x2 := targetNode.position.1, y2 := targetNode.position.2 }
      else
        let dirX := dx / length
        let dirY := dy / length
        let perpOffset : ℝ := ((perpOffsetOf edge allEdges : ℚ) : ℝ)
        let sourceDim := getNodeDimensions sourceNode
        let targetDim := getNodeDimensions targetNode
        let sourceRadius :=
          calculateIntersectionDistance sourceNode sourceDim dirX dirY
        let targetRadius :=
          calculateIntersectionDistance targetNode targetDim dirX dirY
        let sourceCenterX := sourceNode.position.1 + perpOffset * (-dy) / length
        let sourceCenterY := sourceNode.position.2 + perpOffset * dx / length
        let targetCenterX := targetNode.position.1 + perpOffset * (-dy) / length
        let targetCenterY := targetNode.position.2 + perpOffset * dx / length
        { x1 := sourceCenterX + dirX * sourceRadius,
          y1 := sourceCenterY + dirY * sourceRadius,
          x2 := targetCenterX - dirX * targetRadius,
          y2 := targetCenterY - dirY * targetRadius }
  | _, _ => { x1 := 0, y1 := 0, x2 := 0, y2 := 0 }

/-- Euclidean distance between two points of the plane. -/
noncomputable def dist2 (p q : ℝ × ℝ) : ℝ :=
  Real.sqrt ((p.1 - q.1) ^ 2 + (p.2 - q.2) ^ 2)

/-- C8: when the source or target id of an edge does not resolve in the
node lookup, calculateEdgeOffset returns the degenerate all-zero segment;
being a total function of its inputs, it signals nothing to the caller. -/
theorem C8_dangling_reference (edge : GEdge) (allEdges : List GEdge)
    (nodes : List GNode)
    (h : findNode nodes edge.source = none ∨
      findNode nodes edge.target = none) :
    calculateEdgeOffset edge allEdges nodes = ⟨0, 0, 0, 0⟩ := by
  unfold calculateEdgeOffset
  rcases h with h | h
  · rw [h]
  · rcases hs : findNode nodes edge.source with _ | sn
    · rfl
    · rw [h]

/-- Witness for C8: an edge whose endpoints resolve in an empty node list
degenerates to the zero segment. -/
theorem C8_dangling_reference_witness :
    calculateEdgeOffset
      { id := "e1", source := some "x", target := some "y", type := "PV" }
      [] [] = ⟨0, 0, 0, 0⟩ :=
  C8_dangling_reference _ [] [] (Or.inl rfl)

/-- C9: for an edge between two distinct nodes whose centers coincide
exactly, the zero-length guard fires before the direction vector is
normalised: the returned segment joins the two (equal) centers, every
coordinate a well-defined real, and no division by the zero length is
performed. -/
theorem C9_coincident_centers (edge : GEdge) (allEdges : List GEdge)
    (nodes : List GNode) (sn tn : GNode)
    (hs : findNode nodes edge.source = some sn)
    (ht : findNode nodes edge.target = some tn)
    (hne : sn.id ≠ tn.id)
    (hpos : sn.position = tn.position) :
    calculateEdgeOffset edge allEdges nodes =
      ⟨sn.position.1, sn.position.2, tn.position.1, tn.position.2⟩ := by
  unfold calculateEdgeOffset
  rw [hs, ht]
  dsimp only
  rw [if_neg hne, hpos]
  rw [if_pos (by simp)]

/-- Witness for C9: two distinct nodes both centered at (5, 5). -/
theorem C9_coincident_centers_witness :
    calculateEdgeOffset
      { id := "e", source := some "a", target := some "b", type := "PV" }
      []
      [{ id := "a", type := "vocabulary", position := (5, 5) },
       { id := "b", type := "practice", position := (5, 5) }] =
      ⟨5, 5, 5, 5⟩ :=
  C9_coincident_centers _ [] _
    { id := "a", type := "vocabulary", position := (5, 5) }
    { id := "b", type := "practice", position := (5, 5) }
    rfl rfl (by decide) rfl

/-- Inserting preserves membership. -/
theorem insertById_mem {x e : GEdge} {l : List GEdge} :
    x ∈ insertById e l ↔ x = e ∨ x ∈ l := by
  induction l with
  | nil => simp [insertById]
  | cons a xs ih =>
    unfold insertById
    by_cases h : strLe e.id a.id = true
    · simp [h]
    · simp [h, ih]
      tauto

/-- Sorting preserves membership. -/
theorem sortById_mem {x : GEdge} {l : List GEdge} :
    x ∈ sortById l ↔ x ∈ l := by
  induction l with
  | nil => simp [sortById]
  | cons a xs ih =>
    unfold sortById
    rw [insertById_mem]
    simp [ih]

/-- Inserting adds one to the length. -/
theorem insertById_length (e : GEdge) (l : List GEdge) :
    (insertById e l).length = l.length + 1 := by
  induction l with
  | nil => rfl
  | cons a xs ih =>
    unfold insertById
    by_cases h : strLe e.id a.id = true
    · simp [h]
    · simp [h, ih]

/-- Sorting preserves the length. -/
theorem sortById_length (l : List GEdge) :
    (sortById l).length = l.length := by
  induction l with
  | nil => rfl
  | cons a xs ih =>
    unfold sortById
    rw [insertById_length, ih, List.length_cons]

/-- Membership in the same-direction set forces the shared pair (and its
truthiness). -/
theorem sameDir_shared {edge x : GEdge} {allEdges : List GEdge}
    (hx : x ∈ sameDirectionEdges edge allEdges) :
    x.source = edge.source ∧ x.target = edge.target ∧
    truthyStr x.source = true ∧ truthyStr x.target = true := by
  unfold sameDirectionEdges at hx
  have := List.of_mem_filter hx
  simp only [Bool.and_eq_true, beq_iff_eq] at this
  exact ⟨this.1.2, this.2, this.1.1.1, this.1.1.2⟩

/-- Two edges with the same (source, target) pair see the same
same-direction set. -/
theorem sameDirectionEdges_congr {e1 e2 : GEdge} (allEdges : List GEdge)
    (hs : e1.source = e2.source) (ht : e1.target = e2.target) :
    sameDirectionEdges e1 allEdges = sameDirectionEdges e2 allEdges := by
  unfold sameDirectionEdges
  apply List.filter_congr
  intro x hx
  rw [hs, ht]

/-- Two edges with the same (source, target) pair see the same
opposite-direction set. -/
theorem oppositeDirectionEdges_congr {e1 e2 : GEdge} (allEdges : List GEdge)
    (hs : e1.source = e2.source) (ht : e1.target = e2.target) :
    oppositeDirectionEdges e1 allEdges = oppositeDirectionEdges e2 allEdges := by
  unfold oppositeDirectionEdges
  apply List.filter_congr
  intro x hx
  rw [hs, ht]

/-- An edge listed in another edge's sorted same-direction set has the
same sorted same-direction set and the same opposite-direction set. -/
theorem sortedSame_shift {e1 ei : GEdge} {allEdges : List GEdge}
    {L : List GEdge}
    (hsort : sortById (sameDirectionEdges e1 allEdges) = L)
    (hmem : ei ∈ L) :
    sortById (sameDirectionEdges ei allEdges) = L ∧
    oppositeDirectionEdges ei allEdges =
      oppositeDirectionEdges e1 allEdges := by
  have hmem2 : ei ∈ sameDirectionEdges e1 allEdges := by
    apply sortById_mem.mp
    rw [hsort]
    exact hmem
  obtain ⟨hs, ht, -, -⟩ := sameDir_shared hmem2
  constructor
  · rw [sameDirectionEdges_congr allEdges hs ht]
    exact hsort
  · exact oppositeDirectionEdges_congr allEdges hs ht

/-- C4: for edges sharing the identical (source, target) pair, sorted by
id: two edges get symmetric opposite offsets with total separation 25px;
three get 30px-per-step offsets -30/0/30; a fourth edge continues at the
same 30px spacing (offset 60) rather than growing the spacing; and when
any reversed-pair edge exists, same-direction edges get an additional
fixed 35px outward bias. -/
theorem C4_parallel_bidirectional_offsets :
    (∀ (e1 e2 : GEdge) (allEdges : List GEdge),
        sortById (sameDirectionEdges e1 allEdges) = [e1, e2] →
        e1.id ≠ e2.id →
        oppositeDirectionEdges e1 allEdges = [] →
        perpOffsetOf e1 allEdges = -(25 / 2) ∧
        perpOffsetOf e2 allEdges = 25 / 2) ∧
    (∀ (e1 e2 e3 : GEdge) (allEdges : List GEdge),
        sortById (sameDirectionEdges e1 allEdges) = [e1, e2, e3] →
        e1.id ≠ e2.id → e1.id ≠ e3.id → e2.id ≠ e3.id →
        oppositeDirectionEdges e1 allEdges = [] →
        perpOffsetOf e1 allEdges = -30 ∧ perpOffsetOf e2 allEdges = 0 ∧
        perpOffsetOf e3 allEdges = 30) ∧
    (∀ (e1 e2 e3 e4 : GEdge) (allEdges : List GEdge),
        sortById (sameDirectionEdges e1 allEdges) = [e1, e2, e3, e4] →
        e1.id ≠ e2.id → e1.id ≠ e3.id → e1.id ≠ e4.id →
        e2.id ≠ e3.id → e2.id ≠ e4.id → e3.id ≠ e4.id →
        oppositeDirectionEdges e1 allEdges = [] →
        perpOffsetOf e1 allEdges = -30 ∧ perpOffsetOf e2 allEdges = 0 ∧
        perpOffsetOf e3 allEdges = 30 ∧ perpOffsetOf e4 allEdges = 60) ∧
    (∀ (e1 : GEdge) (allEdges : List GEdge),
        sortById (sameDirectionEdges e1 allEdges) = [e1] →
        oppositeDirectionEdges e1 allEdges ≠ [] →
        perpOffsetOf e1 allEdges = 35) ∧
    (∀ (e1 e2 : GEdge) (allEdges : List GEdge),
        sortById (sameDirectionEdges e1 allEdges) = [e1, e2] →
        e1.id ≠ e2.id →
        oppositeDirectionEdges e1 allEdges ≠ [] →
        perpOffsetOf e1 allEdges = -(25 / 2) + 35 ∧
        perpOffsetOf e2 allEdges = 25 / 2 + 35) := by
  refine ⟨?_, ?_, ?_, ?_, ?_⟩
  · intro e1 e2 allEdges hsort h12 hopp
    have h12f : (e1.id == e2.id) = false := beq_eq_false_iff_ne.mpr h12
    obtain ⟨hsort2, hopp2⟩ := sortedSame_shift hsort (by simp : e2 ∈ _)
    rw [hopp] at hopp2
    constructor
    · unfold perpOffsetOf
      rw [hsort, hopp]
      norm_num [sortById, findIndexById]
    · unfold perpOffsetOf
      rw [hsort2, hopp2]
      norm_num [sortById, findIndexById, h12f]
  · intro e1 e2 e3 allEdges hsort h12 h13 h23 hopp
    have h12f : (e1.id == e2.id) = false := beq_eq_false_iff_ne.mpr h12
    have h13f : (e1.id == e3.id) = false := beq_eq_false_iff_ne.mpr h13
    have h23f : (e2.id == e3.id) = false := beq_eq_false_iff_ne.mpr h23
    obtain ⟨hsort2, hopp2⟩ := sortedSame_shift hsort (by simp : e2 ∈ _)
    obtain ⟨hsort3, hopp3⟩ := sortedSame_shift hsort (by simp : e3 ∈ _)
    rw [hopp] at hopp2 hopp3
    refine ⟨?_, ?_, ?_⟩
    · unfold perpOffsetOf
      rw [hsort, hopp]
      norm_num [sortById, findIndexById]
    · unfold perpOffsetOf
      rw [hsort2, hopp2]
      norm_num [sortById, findIndexById, h12f]
    · unfold perpOffsetOf
      rw [hsort3, hopp3]
      norm_num [sortById, findIndexById, h13f, h23f]
  · intro e1 e2 e3 e4 allEdges hsort h12 h13 h14 h23 h24 h34 hopp
    have h12f : (e1.id == e2.id) = false := beq_eq_false_iff_ne.mpr h12
    have h13f : (e1.id == e3.id) = false := beq_eq_false_iff_ne.mpr h13
    have h14f : (e1.id == e4.id) = false := beq_eq_false_iff_ne.mpr h14
    have h23f : (e2.id == e3.id) = false := beq_eq_false_iff_ne.mpr h23
    have h24f : (e2.id == e4.id) = false := beq_eq_false_iff_ne.mpr h24
    have h34f : (e3.id == e4.id) = false := beq_eq_false_iff_ne.mpr h34
    obtain ⟨hsort2, hopp2⟩ := sortedSame_shift hsort (by simp : e2 ∈ _)
    obtain ⟨hsort3, hopp3⟩ := sortedSame_shift hsort (by simp : e3 ∈ _)
    obtain ⟨hsort4, hopp4⟩ := sortedSame_shift hsort (by simp : e4 ∈ _)
    rw [hopp] at hopp2 hopp3 hopp4
    refine ⟨?_, ?_, ?_, ?_⟩
    · unfold perpOffsetOf
      rw [hsort, hopp]
      norm_num [sortById, findIndexById]
    · unfold perpOffsetOf
      rw [hsort2, hopp2]
      norm_num [sortById, findIndexById, h12f]
    · unfold perpOffsetOf
      rw [hsort3, hopp3]
      norm_num [sortById, findIndexById, h13f, h23f]
    · unfold perpOffsetOf
      rw [hsort4, hopp4]
      norm_num [sortById, findIndexById, h14f, h24f, h34f]
  · intro e1 allEdges hsort hopp
    have hlen : 0 < (sortById (oppositeDirectionEdges e1 allEdges)).length := by
      rw [sortById_length]
      exact List.length_pos.mpr hopp
    unfold perpOffsetOf
    rw [hsort]
    rw [if_pos hlen]
    norm_num
  · intro e1 e2 allEdges hsort h12 hopp
    have h12f : (e1.id == e2.id) = false := beq_eq_false_iff_ne.mpr h12
    obtain ⟨hsort2, hopp2⟩ := sortedSame_shift hsort (by simp : e2 ∈ _)
    have hlen : 0 < (sortById (oppositeDirectionEdges e1 allEdges)).length := by
      rw [sortById_length]
      exact List.length_pos.mpr hopp
    have hlen2 : 0 < (sortById (oppositeDirectionEdges e2 allEdges)).length := by
      rw [hopp2]
      exact hlen
    constructor
    · unfold perpOffsetOf
      rw [hsort]
      rw [if_pos hlen]
      norm_num [findIndexById]
    · unfold perpOffsetOf
      rw [hsort2]
      rw [if_pos hlen2]
      norm_num [findIndexById, h12f]

/-- First of two concrete parallel edges for the C4 witness. -/
def parEdgeA : GEdge :=
  { id := "a", source := some "n1", target := some "n2", type := "PV" }

/-- Second of two concrete parallel edges for the C4 witness. -/
def parEdgeB : GEdge :=
  { id := "b", source := some "n1", target := some "n2", type := "PP" }

/-- A concrete reversed-pair edge for the C4 witness. -/
def parEdgeC : GEdge :=
  { id := "c", source := some "n2", target := some "n1", type := "VP" }

/-- Witness for C4: two parallel edges (given in unsorted order) get
offsets -12.5 and 12.5; with a reversed edge present, a lone edge gets the
35px bias and a pair gets the biased symmetric offsets. -/
theorem C4_parallel_bidirectional_offsets_witness :
    (perpOffsetOf parEdgeA [parEdgeB, parEdgeA] = -(25 / 2) ∧
      perpOffsetOf parEdgeB [parEdgeB, parEdgeA] = 25 / 2) ∧
    perpOffsetOf parEdgeA [parEdgeA, parEdgeC] = 35 ∧
    (perpOffsetOf parEdgeA [parEdgeB, parEdgeA, parEdgeC] = -(25 / 2) + 35 ∧
      perpOffsetOf parEdgeB [parEdgeB, parEdgeA, parEdgeC] = 25 / 2 + 35) :=
  ⟨C4_parallel_bidirectional_offsets.1 parEdgeA parEdgeB _ (by decide)
      (by decide) (by decide),
   C4_parallel_bidirectional_offsets.2.2.2.1 parEdgeA _ (by decide)
      (by decide),
   C4_parallel_bidirectional_offsets.2.2.2.2 parEdgeA parEdgeB _ (by decide)
      (by decide) (by decide)⟩

/-- Every node's computed dimensions are strictly positive. -/
theorem getNodeDimensions_pos (n : GNode) :
    0 < (getNodeDimensions n).width ∧ 0 < (getNodeDimensions n).height ∧
    0 < (getNodeDimensions n).radius := by
  unfold getNodeDimensions
  dsimp only
  split_ifs <;> norm_num [jsRound]

/-- A point at distance R along any angle from a center is at distance R
from it. -/
theorem dist2_circle (c : ℝ × ℝ) (R a : ℝ) (hR : 0 ≤ R) :
    dist2 (c.1 + R * Real.cos a, c.2 + R * Real.sin a) c = R := by
  unfold dist2
  have h1 : (c.1 + R * Real.cos a - c.1) ^ 2 +
      (c.2 + R * Real.sin a - c.2) ^ 2 =
      R ^ 2 * (Real.sin a ^ 2 + Real.cos a ^ 2) := by ring
  rw [h1, Real.sin_sq_add_cos_sq, mul_one]
  exact Real.sqrt_sq hR

/-- The two arc endpoints, 0.6 radians apart on a circle of positive
radius, are distinct points. -/
theorem arc_endpoints_ne (c : ℝ × ℝ) (R θ : ℝ) (hR : 0 < R) :
    (c.1 + R * Real.cos (θ - 0.3), c.2 + R * Real.sin (θ - 0.3)) ≠
    (c.1 + R * Real.cos (θ + 0.3), c.2 + R * Real.sin (θ + 0.3)) := by
  intro h
  rw [Prod.mk.injEq] at h
  obtain ⟨hx, hy⟩ := h
  have hc : Real.cos (θ - 0.3) = Real.cos (θ + 0.3) :=
    mul_left_cancel₀ (ne_of_gt hR) (add_left_cancel hx)
  have hsn : Real.sin (θ - 0.3) = Real.sin (θ + 0.3) :=
    mul_left_cancel₀ (ne_of_gt hR) (add_left_cancel hy)
  have hc2 := Real.cos_sub_cos (θ - 0.3) (θ + 0.3)
  have hs2 := Real.sin_sub_sin (θ - 0.3) (θ + 0.3)
  rw [hc, sub_self] at hc2
  rw [hsn, sub_self] at hs2
  have e1 : (θ - 0.3 + (θ + 0.3)) / 2 = θ := by ring
  have e2 : (θ - 0.3 - (θ + 0.3)) / 2 = -(0.3 : ℝ) := by ring
  rw [e1, e2, Real.sin_neg] at hc2 hs2
  have hpos : (0:ℝ) < Real.sin 0.3 := by
    apply Real.sin_pos_of_pos_of_lt_pi
    · norm_num
    · linarith [Real.pi_gt_three]
  have h1 : Real.sin θ * Real.sin 0.3 = 0 := by nlinarith [hc2]
  have h2 : Real.cos θ * Real.sin 0.3 = 0 := by nlinarith [hs2]
  have hth := Real.sin_sq_add_cos_sq θ
  rcases mul_eq_zero.mp h1 with h | h
  · rcases mul_eq_zero.mp h2 with h' | h'
    · rw [h, h'] at hth
      norm_num at hth
    · linarith
  · linarith

/-- C5: self-loop edges, sorted by id, get angular slots 60 degrees apart
centered on 0 (three loops sit at -60, 0 and 60 degrees); every self-loop
is emitted as the arc from slot angle minus 0.3 rad to slot angle plus
0.3 rad, both endpoints at radius half-max-dimension + 10 from the node
center, and the arc is never a zero-length segment. -/
theorem C5_self_loop_arcs :
    (∀ (e1 e2 e3 : GEdge) (allEdges : List GEdge) (nodeId : String),
        sortById (selfEdgesOf nodeId allEdges) = [e1, e2, e3] →
        e1.id ≠ e2.id → e1.id ≠ e3.id → e2.id ≠ e3.id →
        selfLoopAngleDeg e1 allEdges nodeId = -60 ∧
        selfLoopAngleDeg e2 allEdges nodeId = 0 ∧
        selfLoopAngleDeg e3 allEdges nodeId = 60) ∧
    (∀ (edge : GEdge) (allEdges : List GEdge) (nodes : List GNode)
        (sn tn : GNode),
        findNode nodes edge.source = some sn →
        findNode nodes edge.target = some tn →
        sn.id = tn.id →
        let R : ℝ := ((max (getNodeDimensions sn).width
          (getNodeDimensions sn).height : ℚ) : ℝ) / 2 + 10
        let θ : ℝ := ((selfLoopAngleDeg edge allEdges sn.id : ℚ) : ℝ) *
          Real.pi / 180
        calculateEdgeOffset edge allEdges nodes =
          ⟨sn.position.1 + R * Real.cos (θ - 0.3),
           sn.position.2 + R * Real.sin (θ - 0.3),
           sn.position.1 + R * Real.cos (θ + 0.3),
           sn.position.2 + R * Real.sin (θ + 0.3)⟩ ∧
        dist2 (sn.position.1 + R * Real.cos (θ - 0.3),
          sn.position.2 + R * Real.sin (θ - 0.3)) sn.position = R ∧
        dist2 (sn.position.1 + R * Real.cos (θ + 0.3),
          sn.position.2 + R * Real.sin (θ + 0.3)) sn.position = R ∧
        (sn.position.1 + R * Real.cos (θ - 0.3),
          sn.position.2 + R * Real.sin (θ - 0.3)) ≠
          (sn.position.1 + R * Real.cos (θ + 0.3),
           sn.position.2 + R * Real.sin (θ + 0.3)) ∧
        θ - 0.3 ≠ θ + 0.3) := by
  constructor
  · intro e1 e2 e3 allEdges nodeId hsort h12 h13 h23
    have h12f : (e1.id == e2.id) = false := beq_eq_false_iff_ne.mpr h12
    have h13f : (e1.id == e3.id) = false := beq_eq_false_iff_ne.mpr h13
    have h23f : (e2.id == e3.id) = false := beq_eq_false_iff_ne.mpr h23
    refine ⟨?_, ?_, ?_⟩
    · unfold selfLoopAngleDeg
      rw [hsort]
      norm_num [findIndexById]
    · unfold selfLoopAngleDeg
      rw [hsort]
      norm_num [findIndexById, h12f]
    · unfold selfLoopAngleDeg
      rw [hsort]
      norm_num [findIndexById, h13f, h23f]
  · intro edge allEdges nodes sn tn hs ht hid
    dsimp only
    have hw := getNodeDimensions_pos sn
    have h0 : (0:ℚ) < max (getNodeDimensions sn).width
        (getNodeDimensions sn).height :=
      lt_of_lt_of_le hw.1 (le_max_left _ _)
    have h0r : (0:ℝ) < ((max (getNodeDimensions sn).width
        (getNodeDimensions sn).height : ℚ) : ℝ) := by exact_mod_cast h0
    have hR : (0:ℝ) < ((max (getNodeDimensions sn).width
        (getNodeDimensions sn).height : ℚ) : ℝ) / 2 + 10 := by linarith
    refine ⟨?_, ?_, ?_, ?_, ?_⟩
    · unfold calculateEdgeOffset
      rw [hs, ht]
      dsimp only
      rw [if_pos hid]
    · exact dist2_circle sn.position _ _ (le_of_lt hR)
    · exact dist2_circle sn.position _ _ (le_of_lt hR)
    · exact arc_endpoints_ne sn.position _ _ hR
    · intro hcontra
      have : (0.3 : ℝ) = -0.3 := by linarith
      norm_num at this

/-- The scenario node: a test node centered at (50, 50). -/
def loopNode : GNode := { id := "C", type := "test", position := (50, 50) }

/-- The scenario self-loop edge of type feedback. -/
def loopEdge : GEdge :=
  { id := "l1", source := some "C", target := some "C", type := "feedback" }

/-- Witness for C5: the single feedback self-loop on the test node at
(50, 50) is emitted as a genuine arc, both endpoints at distance 45
(= 70/2 + 10) from the center, and the two endpoints differ. -/
theorem C5_self_loop_arcs_witness :
    dist2 ((calculateEdgeOffset loopEdge [loopEdge] [loopNode]).x1,
        (calculateEdgeOffset loopEdge [loopEdge] [loopNode]).y1)
      loopNode.position = 45 ∧
    dist2 ((calculateEdgeOffset loopEdge [loopEdge] [loopNode]).x2,
        (calculateEdgeOffset loopEdge [loopEdge] [loopNode]).y2)
      loopNode.position = 45 ∧
    ((calculateEdgeOffset loopEdge [loopEdge] [loopNode]).x1,
      (calculateEdgeOffset loopEdge [loopEdge] [loopNode]).y1) ≠
    ((calculateEdgeOffset loopEdge [loopEdge] [loopNode]).x2,
      (calculateEdgeOffset loopEdge [loopEdge] [loopNode]).y2) := by
  have h := C5_self_loop_arcs.2 loopEdge [loopEdge] [loopNode]
    loopNode loopNode rfl rfl rfl
  dsimp only at h
  obtain ⟨harc, hd1, hd2, hne, -⟩ := h
  have hR : ((max (getNodeDimensions loopNode).width
      (getNodeDimensions loopNode).height : ℚ) : ℝ) / 2 + 10 = 45 := by
    norm_num [getNodeDimensions, loopNode, jsRound, orDefault]
    rw [if_neg (by decide), if_neg (by decide)]
    norm_num
  refine ⟨?_, ?_, ?_⟩
  · rw [harc]
    dsimp only
    rw [hd1, hR]
  · rw [harc]
    dsimp only
    rw [hd2, hR]
  · rw [harc]
    dsimp only
    exact hne

/-- A lone edge with no opposite-direction partner gets no perpendicular
offset. -/
theorem perpOffsetOf_single {edge : GEdge} {allEdges : List GEdge}
    (hsame : (sameDirectionEdges edge allEdges).length ≤ 1)
    (hopp : oppositeDirectionEdges edge allEdges = []) :
    perpOffsetOf edge allEdges = 0 := by
  unfold perpOffsetOf
  rw [hopp]
  have hlen : ¬ 1 < (sortById (sameDirectionEdges edge allEdges)).length := by
    rw [sortById_length]
    omega
  dsimp only [sortById]
  rw [if_neg hlen]
  simp

/-- The border distance is strictly positive for every node shape, given
a unit direction. -/
theorem calculateIntersectionDistance_pos (node : GNode) (dirX dirY : ℝ)
    (hunit : dirX ^ 2 + dirY ^ 2 = 1) :
    0 < calculateIntersectionDistance node (getNodeDimensions node)
      dirX dirY := by
  obtain ⟨hw, hh, hr⟩ := getNodeDimensions_pos node
  have hwr : (0:ℝ) < ((getNodeDimensions node).width : ℝ) := by
    exact_mod_cast hw
  have hhr : (0:ℝ) < ((getNodeDimensions node).height : ℝ) := by
    exact_mod_cast hh
  have hrr : (0:ℝ) < ((getNodeDimensions node).radius : ℝ) := by
    exact_mod_cast hr
  have hnz : dirX ≠ 0 ∨ dirY ≠ 0 := by
    by_contra hcon
    push_neg at hcon
    rw [hcon.1, hcon.2] at hunit
    norm_num at hunit
  unfold calculateIntersectionDistance
  by_cases h1 : node.type = "vocabulary"
  · rw [if_pos h1]
    dsimp only
    have hrx : (0:ℝ) < ((getNodeDimensions node).width : ℝ) / 2 := by
      linarith
    have hry : (0:ℝ) < ((getNodeDimensions node).height : ℝ) / 2 := by
      linarith
    have harg : 0 < |dirX| * |dirX| /
        (((getNodeDimensions node).width : ℝ) / 2 *
          (((getNodeDimensions node).width : ℝ) / 2)) +
        |dirY| * |dirY| /
        (((getNodeDimensions node).height : ℝ) / 2 *
          (((getNodeDimensions node).height : ℝ) / 2)) := by
      rcases hnz with hx | hy
      · have t1 : 0 < |dirX| * |dirX| := by
          have := abs_pos.mpr hx
          exact mul_pos this this
        have t2 : 0 ≤ |dirY| * |dirY| := mul_nonneg (abs_nonneg _) (abs_nonneg _)
        have m1 : 0 < ((getNodeDimensions node).width : ℝ) / 2 *
            (((getNodeDimensions node).width : ℝ) / 2) := mul_pos hrx hrx
        have m2 : 0 < ((getNodeDimensions node).height : ℝ) / 2 *
            (((getNodeDimensions node).height : ℝ) / 2) := mul_pos hry hry
        have := div_pos t1 m1
        have := div_nonneg t2 (le_of_lt m2)
        linarith
      · have t1 : 0 < |dirY| * |dirY| := by
          have := abs_pos.mpr hy
          exact mul_pos this this
        have t2 : 0 ≤ |dirX| * |dirX| := mul_nonneg (abs_nonneg _) (abs_nonneg _)
        have m1 : 0 < ((getNodeDimensions node).width : ℝ) / 2 *
            (((getNodeDimensions node).width : ℝ) / 2) := mul_pos hrx hrx
        have m2 : 0 < ((getNodeDimensions node).height : ℝ) / 2 *
            (((getNodeDimensions node).height : ℝ) / 2) := mul_pos hry hry
        have := div_pos t1 m2
        have := div_nonneg t2 (le_of_lt m1)
        linarith
    exact div_pos one_pos (Real.sqrt_pos.mpr harg)
  · rw [if_neg h1]
    by_cases h2 : node.type = "test"
    · rw [if_pos h2]
      nlinarith
    · rw [if_neg h2]
      dsimp only
      by_cases h3 : |dirY| < |dirX|
      · rw [if_pos h3]
        exact div_pos (by linarith) (lt_of_le_of_lt (abs_nonneg dirY) h3)
      · rw [if_neg h3]
        push_neg at h3
        have hy : 0 < |dirY| := by
          rcases eq_or_lt_of_le (abs_nonneg dirY) with h0 | h0
          · exfalso
            rw [← h0] at h3
            have hx0 : dirX = 0 := abs_eq_zero.mp (le_antisymm h3 (by positivity))
            have hy0 : dirY = 0 := abs_eq_zero.mp h0.symm
            rw [hx0, hy0] at hunit
            norm_num at hunit
          · exact h0
        exact div_pos (by linarith) hy

/-- A point reached from p along a unit direction at parameter r has
distance r from p. -/
theorem dist2_unit_dir (p : ℝ × ℝ) (ux uy r : ℝ)
    (hunit : ux ^ 2 + uy ^ 2 = 1) (hr : 0 ≤ r) :
    dist2 (p.1 + ux * r, p.2 + uy * r) p = r := by
  unfold dist2
  have h1 : (p.1 + ux * r - p.1) ^ 2 + (p.2 + uy * r - p.2) ^ 2 =
      r ^ 2 * (ux ^ 2 + uy ^ 2) := by ring
  rw [h1, hunit, mul_one]
  exact Real.sqrt_sq hr

/-- Evaluation of calculateEdgeOffset on a straight (non-self-loop,
non-degenerate, offset-free) edge: both endpoints pulled back from the
centers by the per-shape border distances along the unit direction. -/
theorem calcEdgeOffset_straight (edge : GEdge) (allEdges : List GEdge)
    (nodes : List GNode) (sn tn : GNode)
    (hs : findNode nodes edge.source = some sn)
    (ht : findNode nodes edge.target = some tn)
    (hnid : sn.id ≠ tn.id)
    (hlen : Real.sqrt
      ((tn.position.1 - sn.position.1) * (tn.position.1 - sn.position.1) +
        (tn.position.2 - sn.position.2) * (tn.position.2 - sn.position.2)) ≠ 0)
    (hperp : perpOffsetOf edge allEdges = 0) :
    calculateEdgeOffset edge allEdges nodes =
      ⟨sn.position.1 +
          (tn.position.1 - sn.position.1) / Real.sqrt
            ((tn.position.1 - sn.position.1) * (tn.position.1 - sn.position.1) +
              (tn.position.2 - sn.position.2) * (tn.position.2 - sn.position.2)) *
          calculateIntersectionDistance sn (getNodeDimensions sn)
            ((tn.position.1 - sn.position.1) / Real.sqrt
              ((tn.position.1 - sn.position.1) * (tn.position.1 - sn.position.1) +
                (tn.position.2 - sn.position.2) * (tn.position.2 - sn.position.2)))
            ((tn.position.2 - sn.position.2) / Real.sqrt
              ((tn.position.1 - sn.position.1) * (tn.position.1 - sn.position.1) +
                (tn.position.2 - sn.position.2) * (tn.position.2 - sn.position.2))),
        sn.position.2 +
          (tn.position.2 - sn.position.2) / Real.sqrt
            ((tn.position.1 - sn.position.1) * (tn.position.1 - sn.position.1) +
              (tn.position.2 - sn.position.2) * (tn.position.2 - sn.position.2)) *
          calculateIntersectionDistance sn (getNodeDimensions sn)
            ((tn.position.1 - sn.position.1) / Real.sqrt
              ((tn.position.1 - sn.position.1) * (tn.position.1 - sn.position.1) +
                (tn.position.2 - sn.position.2) * (tn.position.2 - sn.position.2)))
            ((tn.position.2 - sn.position.2) / Real.sqrt
              ((tn.position.1 - sn.position.1) * (tn.position.1 - sn.position.1) +
                (tn.position.2 - sn.position.2) * (tn.position.2 - sn.position.2))),
        tn.position.1 -
          (tn.position.1 - sn.position.1) / Real.sqrt
            ((tn.position.1 - sn.position.1) * (tn.position.1 - sn.position.1) +
              (tn.position.2 - sn.position.2) * (tn.position.2 - sn.position.2)) *
          calculateIntersectionDistance tn (getNodeDimensions tn)
            ((tn.position.1 - sn.position.1) / Real.sqrt
              ((tn.position.1 - sn.position.1) * (tn.position.1 - sn.position.1) +
                (tn.position.2 - sn.position.2) * (tn.position.2 - sn.position.2)))
            ((tn.position.2 - sn.position.2) / Real.sqrt
              ((tn.position.1 - sn.position.1) * (tn.position.1 - sn.position.1) +
                (tn.position.2 - sn.position.2) * (tn.position.2 - sn.position.2))),
        tn.position.2 -
          (tn.position.2 - sn.position.2) / Real.sqrt
            ((tn.position.1 - sn.position.1) * (tn.position.1 - sn.position.1) +
              (tn.position.2 - sn.position.2) * (tn.position.2 - sn.position.2)) *
          calculateIntersectionDistance tn (getNodeDimensions tn)
            ((tn.position.1 - sn.position.1) / Real.sqrt
              ((tn.position.1 - sn.position.1) * (tn.position.1 - sn.position.1) +
                (tn.position.2 - sn.position.2) * (tn.position.2 - sn.position.2)))
            ((tn.position.2 - sn.position.2) / Real.sqrt
              ((tn.position.1 - sn.position.1) * (tn.position.1 - sn.position.1) +
                (tn.position.2 - sn.position.2) * (tn.position.2 - sn.position.2)))⟩ := by
  unfold calculateEdgeOffset
  rw [hs, ht]
  dsimp only
  rw [if_neg hnid, if_neg hlen]
  simp only [hperp, Rat.cast_zero, zero_mul, zero_div, add_zero]

/-- C3 (amended): for a straight single edge between two distinct,
non-coincident nodes, the endpoint nearest the source lies exactly at the
per-shape border distance from the source center along the unit connecting
direction (parametric ellipse radius for vocabulary, slab intersection for
the rectangle shapes, radius times 1.2 for the test diamond); that
distance is strictly positive, so the endpoint is never the center; and
provided the two border distances fit within the center distance — a
hypothesis the counterexample shows cannot be dropped — the endpoint is
not beyond the other node. -/
theorem C3_border_touch (edge : GEdge) (allEdges : List GEdge)
    (nodes : List GNode) (sn tn : GNode)
    (hs : findNode nodes edge.source = some sn)
    (ht : findNode nodes edge.target = some tn)
    (hnid : sn.id ≠ tn.id)
    (hnpos : sn.position ≠ tn.position)
    (hsame : (sameDirectionEdges edge allEdges).length ≤ 1)
    (hopp : oppositeDirectionEdges edge allEdges = [])
    (dx dy len dirX dirY sR tR : ℝ)
    (hdx : dx = tn.position.1 - sn.position.1)
    (hdy : dy = tn.position.2 - sn.position.2)
    (hlen : len = Real.sqrt (dx * dx + dy * dy))
    (hdirX : dirX = dx / len) (hdirY : dirY = dy / len)
    (hsR : sR = calculateIntersectionDistance sn (getNodeDimensions sn)
      dirX dirY)
    (htR : tR = calculateIntersectionDistance tn (getNodeDimensions tn)
      dirX dirY) :
    calculateEdgeOffset edge allEdges nodes =
      ⟨sn.position.1 + dirX * sR, sn.position.2 + dirY * sR,
       tn.position.1 - dirX * tR, tn.position.2 - dirY * tR⟩ ∧
    dist2 (sn.position.1 + dirX * sR, sn.position.2 + dirY * sR)
      sn.position = sR ∧
    0 < sR ∧ 0 < tR ∧
    dist2 sn.position tn.position = len ∧
    (sn.position.1 + dirX * sR, sn.position.2 + dirY * sR) ≠ sn.position ∧
    (sR + tR ≤ len →
      dist2 (sn.position.1 + dirX * sR, sn.position.2 + dirY * sR)
        sn.position ≤ dist2 sn.position tn.position) := by
  subst hdx hdy hlen hdirX hdirY hsR htR
  have hne2 : tn.position.1 - sn.position.1 ≠ 0 ∨
      tn.position.2 - sn.position.2 ≠ 0 := by
    by_contra hcon
    push_neg at hcon
    apply hnpos
    have h1 : sn.position.1 = tn.position.1 := by
      have := hcon.1
      linarith [this]
    have h2 : sn.position.2 = tn.position.2 := by
      have := hcon.2
      linarith [this]
    exact Prod.ext h1 h2
  have hsum : 0 <
      (tn.position.1 - sn.position.1) * (tn.position.1 - sn.position.1) +
      (tn.position.2 - sn.position.2) * (tn.position.2 - sn.position.2) := by
    rcases hne2 with h | h
    · have h3 := mul_self_pos.mpr h
      nlinarith [mul_self_nonneg (tn.position.2 - sn.position.2)]
    · have h3 := mul_self_pos.mpr h
      nlinarith [mul_self_nonneg (tn.position.1 - sn.position.1)]
  have hlenpos : 0 < Real.sqrt
      ((tn.position.1 - sn.position.1) * (tn.position.1 - sn.position.1) +
        (tn.position.2 - sn.position.2) * (tn.position.2 - sn.position.2)) :=
    Real.sqrt_pos.mpr hsum
  have hunit :
      ((tn.position.1 - sn.position.1) / Real.sqrt
        ((tn.position.1 - sn.position.1) * (tn.position.1 - sn.position.1) +
          (tn.position.2 - sn.position.2) * (tn.position.2 - sn.position.2))) ^ 2 +
      ((tn.position.2 - sn.position.2) / Real.sqrt
        ((tn.position.1 - sn.position.1) * (tn.position.1 - sn.position.1) +
          (tn.position.2 - sn.position.2) * (tn.position.2 - sn.position.2))) ^ 2 = 1 := by
    rw [div_pow, div_pow, div_add_div_same,
      Real.sq_sqrt (le_of_lt hsum)]
    rw [div_eq_one_iff_eq (ne_of_gt hsum)]
    ring
  have hperp := perpOffsetOf_single hsame hopp
  have harc := calcEdgeOffset_straight edge allEdges nodes sn tn hs ht hnid
    (ne_of_gt hlenpos) hperp
  have hsRpos := calculateIntersectionDistance_pos sn _ _ hunit
  have htRpos := calculateIntersectionDistance_pos tn _ _ hunit
  have hdsn := dist2_unit_dir sn.position _ _ _ hunit (le_of_lt hsRpos)
  have hcc : dist2 sn.position tn.position = Real.sqrt
      ((tn.position.1 - sn.position.1) * (tn.position.1 - sn.position.1) +
        (tn.position.2 - sn.position.2) * (tn.position.2 - sn.position.2)) := by
    unfold dist2
    congr 1
    ring
  refine ⟨harc, hdsn, hsRpos, htRpos, hcc, ?_, ?_⟩
  · intro heq
    rw [heq] at hdsn
    have hz : dist2 sn.position sn.position = 0 := by
      unfold dist2
      simp
    rw [hz] at hdsn
    exact absurd hdsn.symm (ne_of_gt hsRpos)
  · intro hle
    rw [hdsn, hcc]
    linarith

/-- Dimensions of an unstyled non-test node: 100 by 50, radius 50. -/
theorem dims_default_nontest {n : GNode} (h : ¬ n.type = "test")
    (hstyle : n.style = none) :
    getNodeDimensions n = ⟨100, 50, 50⟩ := by
  unfold getNodeDimensions
  rw [hstyle]
  dsimp only [orDefault]
  rw [if_neg h,
    if_neg (by decide : ¬ ("medium" : String) = "small"),
    if_neg (by decide : ¬ ("medium" : String) = "large")]
  norm_num [jsRound]

/-- Dimensions of an unstyled test node: 70 by 70, radius 35. -/
theorem dims_default_test {n : GNode} (h : n.type = "test")
    (hstyle : n.style = none) :
    getNodeDimensions n = ⟨70, 70, 35⟩ := by
  unfold getNodeDimensions
  rw [hstyle]
  dsimp only [orDefault]
  rw [if_pos h,
    if_neg (by decide : ¬ ("medium" : String) = "small"),
    if_neg (by decide : ¬ ("medium" : String) = "large")]
  norm_num [jsRound]

/-- Border distance of an unstyled vocabulary node in the horizontal unit
direction: the ellipse half-width, 50. -/
theorem vocab_border_horizontal {n : GNode} (h : n.type = "vocabulary")
    (hstyle : n.style = none) :
    calculateIntersectionDistance n (getNodeDimensions n) 1 0 = 50 := by
  rw [dims_default_nontest (by rw [h]; decide) hstyle]
  unfold calculateIntersectionDistance
  rw [if_pos h]
  dsimp only
  rw [abs_one, abs_zero]
  norm_num
  rw [show (2500:ℝ) = 50 ^ 2 by norm_num,
    Real.sqrt_sq (by norm_num : (0:ℝ) ≤ 50)]

/-- Border distance of an unstyled practice node in the horizontal unit
direction: the rectangle half-width, 50. -/
theorem practice_border_horizontal {n : GNode} (h : n.type = "practice")
    (hstyle : n.style = none) :
    calculateIntersectionDistance n (getNodeDimensions n) 1 0 = 50 := by
  rw [dims_default_nontest (by rw [h]; decide) hstyle]
  unfold calculateIntersectionDistance
  rw [if_neg (by rw [h]; decide), if_neg (by rw [h]; decide)]
  dsimp only
  rw [abs_one, abs_zero, if_pos (by norm_num : (0:ℝ) < 1)]
  norm_num

/-- The overlapping-scenario vocabulary node at the origin. -/
def ovA : GNode := { id := "A", type := "vocabulary", position := (0, 0) }

/-- The overlapping-scenario practice node one pixel away. -/
def ovB : GNode := { id := "B", type := "practice", position := (1, 0) }

/-- The single edge joining the two overlapping nodes. -/
def ovEdge : GEdge :=
  { id := "e", source := some "A", target := some "B", type := "VP" }

/-- C3 counterexample: for the non-coincident nodes at (0,0) and (1,0),
the computed endpoint nearest A lies at (50, 0) — 50 pixels from A's
center while B is only 1 pixel away — so the endpoint is beyond B and the
claim's universal 'not beyond B' fails on overlapping nodes. -/
theorem C3_border_touch_counterexample :
    calculateEdgeOffset ovEdge [ovEdge] [ovA, ovB] = ⟨50, 0, -49, 0⟩ ∧
    dist2 (50, 0) ovA.position = 50 ∧
    dist2 ovA.position ovB.position = 1 ∧
    ¬ dist2 (50, 0) ovA.position ≤ dist2 ovA.position ovB.position := by
  have hd1 : ovB.position.1 - ovA.position.1 = 1 := by norm_num [ovA, ovB]
  have hd2 : ovB.position.2 - ovA.position.2 = 0 := by norm_num [ovA, ovB]
  have hsqrt : Real.sqrt ((1:ℝ) * 1 + 0 * 0) = 1 := by
    rw [show ((1:ℝ) * 1 + 0 * 0) = 1 by norm_num]
    exact Real.sqrt_one
  have harc := calcEdgeOffset_straight ovEdge [ovEdge] [ovA, ovB] ovA ovB
    rfl rfl (by decide)
    (by rw [hd1, hd2, hsqrt]; norm_num) (by decide)
  rw [hd1, hd2, hsqrt] at harc
  norm_num at harc
  rw [vocab_border_horizontal rfl rfl, practice_border_horizontal rfl rfl]
    at harc
  have hdA : dist2 (50, 0) ovA.position = 50 := by
    unfold dist2
    norm_num [ovA]
    rw [show (2500:ℝ) = 50 ^ 2 by norm_num,
      Real.sqrt_sq (by norm_num : (0:ℝ) ≤ 50)]
  have hdAB : dist2 ovA.position ovB.position = 1 := by
    unfold dist2
    norm_num [ovA, ovB]
  refine ⟨?_, hdA, hdAB, ?_⟩
  · rw [harc]
    norm_num [ovA, ovB]
  · rw [hdA, hdAB]
    norm_num

/-- The spec-scenario vocabulary node A at (100, 100). -/
def scA : GNode := { id := "A", type := "vocabulary", position := (100, 100) }

/-- The spec-scenario practice node B at (300, 100). -/
def scB : GNode := { id := "B", type := "practice", position := (300, 100) }

/-- The spec-scenario VP edge from A to B. -/
def scEdge : GEdge :=
  { id := "e1", source := some "A", target := some "B", type := "VP" }

/-- Witness for C3: the spec's two-node scenario.  The endpoint near A is
(100 + 50, 100) — exactly A's ellipse half-width from its center — and the
endpoint near B is (300 - 50, 100), B's rectangle half-width from its
center; the centers are 200 apart so neither endpoint is beyond the other
node. -/
theorem C3_border_touch_witness :
    calculateEdgeOffset scEdge [scEdge] [scA, scB] =
      ⟨100 + 50, 100, 300 - 50, 100⟩ ∧
    dist2 (scA.position.1 + 1 * 50, scA.position.2 + 0 * 50)
      scA.position = 50 ∧
    dist2 scA.position scB.position = 200 := by
  have h := C3_border_touch scEdge [scEdge] [scA, scB] scA scB rfl rfl
    (by decide) (by norm_num [scA, scB, Prod.ext_iff]) (by decide) (by decide)
    200 0 200 1 0 50 50
    (by norm_num [scA, scB])
    (by norm_num [scA, scB])
    (by rw [show ((200:ℝ) * 200 + 0 * 0) = 200 ^ 2 by norm_num,
        Real.sqrt_sq (by norm_num : (0:ℝ) ≤ 200)])
    (by norm_num)
    (by norm_num)
    (vocab_border_horizontal rfl rfl).symm
    (practice_border_horizontal rfl rfl).symm
  refine ⟨?_, h.2.1, h.2.2.2.2.1⟩
  rw [h.1]
  norm_num [scA, scB]
